import Mathlib

/-!
Verification development for the translate-linker backend.

Each Python service that the verified claims touch is shallowly embedded as a
Lean function over explicit state.  Python dicts become association lists,
floats become rationals, exceptions become `Except String`, and external
collaborators (file system, LLM vendors, embedding models) become fields of an
environment record that the pipeline functions are parameterised over.
-/

namespace TranslateLinker

/-! ## Association-list dictionaries (Python `dict` semantics) -/

/-- Python `d[k]` lookup returning `none` when the key is absent. -/
def dictGet? {α : Type} : List (String × α) → String → Option α
  | [], _ => none
  | (k', v) :: rest, k => if k' = k then some v else dictGet? rest k

/-- Python `d.get(k, default)`. -/
def dictGetD {α : Type} (d : List (String × α)) (k : String) (dflt : α) : α :=
  (dictGet? d k).getD dflt

/-- Python `d[k] = v`: replaces the existing binding in place, else appends. -/
def dictSet {α : Type} : List (String × α) → String → α → List (String × α)
  | [], k, v => [(k, v)]
  | (k', v') :: rest, k, v =>
    if k' = k then (k, v) :: rest else (k', v') :: dictSet rest k v

/-- Number of stored entries under a key (1 or 0 for a well-formed dict). -/
def countKey {α : Type} (d : List (String × α)) (k : String) : Nat :=
  d.countP (fun p => decide (p.1 = k))

/-! ## Python string primitives, re-implemented structurally -/

/-- Python `str.lower()` (ASCII behaviour, which is all the repo uses). -/
def pyLower (s : String) : String :=
  String.mk (s.data.map Char.toLower)

/-- Splits on whitespace runs, dropping empty tokens: `str.split()`. -/
def pyWordsAux : List Char → List Char → List String
  | [], acc => if acc.isEmpty then [] else [String.mk acc.reverse]
  | c :: cs, acc =>
    if c.isWhitespace then
      if acc.isEmpty then pyWordsAux cs [] else String.mk acc.reverse :: pyWordsAux cs []
    else
      pyWordsAux cs (c :: acc)

/-- Python `text.split()`. -/
def pyWords (s : String) : List String :=
  pyWordsAux s.data []

/-- Whether `pat` is a leading segment of `l` (`str.startswith`). -/
def startsWithChars : List Char → List Char → Bool
  | [], _ => true
  | _ :: _, [] => false
  | a :: as, b :: bs => a == b && startsWithChars as bs

/-- Whether `sub` occurs inside `text` (Python `sub in text`). -/
def containsSubChars (sub : List Char) : List Char → Bool
  | [] => startsWithChars sub []
  | c :: rest => startsWithChars sub (c :: rest) || containsSubChars sub rest

/-- Python `sub in text` on strings. -/
def pyContains (text sub : String) : Bool :=
  containsSubChars sub.data text.data

/-- Python `any(c in text for c in marker)`. -/
def pyContainsAnyChar (text marker : String) : Bool :=
  marker.data.any (fun c => text.data.contains c)

/-- Python `"\n\n".join(chunks)`. -/
def joinNN : List String → String
  | [] => ""
  | [x] => x
  | x :: y :: rest => x ++ "\n\n" ++ joinNN (y :: rest)

/-! ## Stable insertion sort (Python `list.sort(key=..., reverse=True)`) -/

/-- Inserts `a` in front of the first element it strictly beats, keeping the
original order among ties: the stable descending insertion used to model
Python's stable sort with `reverse=True`. -/
def insertDescBy {α : Type} (gt : α → α → Bool) (a : α) : List α → List α
  | [] => [a]
  | x :: xs => if gt a x then a :: x :: xs else x :: insertDescBy gt a xs

/-- Stable descending sort by the comparison `gt`. -/
def sortDescBy {α : Type} (gt : α → α → Bool) (l : List α) : List α :=
  l.foldr (insertDescBy gt) []

/-! ## Data model (src/backend/models/translation.py) -/

/-- The `TranslationStatus` enum. -/
inductive TranslationStatus where
  | pending
  | processing
  | completed
  | failed
deriving DecidableEq, Repr

/-- The `ProcessingDetails` pydantic model (wall-clock fields `processingTime` and
`totalTokens` are external measurements and are left out of the embedding). -/
structure ProcessingDetails where
  engine : String := "langchain"
  model : String := "deepseek-coder"
  vectorStore : String := "faiss"
  documentChunks : Nat := 0
  ragEnabled : Bool := true
  translationProvider : Option String := none
  agentEnabled : Bool := true
  confidenceScore : Option ℚ := none
deriving DecidableEq, Repr

/-- The `Translation` pydantic model: one job record in `translations_db`. -/
structure Translation where
  id : String
  originalFileName : String
  targetLanguage : String
  status : TranslationStatus
  downloadUrl : Option String := none
  createdAt : String
  errorMessage : Option String := none
  processingDetails : Option ProcessingDetails := none
deriving DecidableEq, Repr

/-- The module-level `translations_db` dict of translation_service.py. -/
abbrev TransDB := List (String × Translation)

/-- The module-level `progress_tracker` dict of translation_service.py. -/
abbrev Tracker := List (String × ℚ)

/-! ## API keys (src/backend/models/api_key.py) -/

/-- The `APIKeySettings` pydantic model.  `debug_mode` only gates logging and is
dropped. -/
structure APIKeySettings where
  openai_key : Option String := none
  anthropic_key : Option String := none
  google_key : Option String := none
  groq_key : Option String := none
  cohere_key : Option String := none
  huggingface_key : Option String := none
  deepseek_key : Option String := none
  siliconflow_key : Option String := none
  default_provider : String := "openai"
deriving DecidableEq, Repr

/-- Python truthiness of an optional key string (`if key:`). -/
def keyTruthy : Option String → Bool
  | some s => !(s == "")
  | none => false

/-- The `provider_map` dict of `get_key_for_provider` combined with `getattr`:
returns the attribute holding the provider's key when the name is known. -/
def providerAttr (s : APIKeySettings) : String → Option (Option String)
  | "openai" => some s.openai_key
  | "chatgpt" => some s.openai_key
  | "anthropic" => some s.anthropic_key
  | "claude" => some s.anthropic_key
  | "google" => some s.google_key
  | "vertex" => some s.google_key
  | "grok" => some s.google_key
  | "groq" => some s.groq_key
  | "cohere" => some s.cohere_key
  | "huggingface" => some s.huggingface_key
  | "deepseek" => some s.deepseek_key
  | "siliconflow" => some s.siliconflow_key
  | _ => none

/-- Lines 94-99 of api_key.py: `if attr_name: key = getattr(self, attr_name);
if key: return key` — the direct (non-fallback) lookup. -/
def directKey (s : APIKeySettings) (provider : String) : Option String :=
  match providerAttr s provider with
  | some k => if keyTruthy k then k else none
  | none => none

/-- The fixed priority list walked by every fallback loop in the repo. -/
def providerPriorityList : List String :=
  ["openai", "anthropic", "google", "groq", "cohere", "huggingface", "deepseek", "siliconflow"]

/-- Lines 106-112 of api_key.py: the for-loop over all providers, skipping the
current (default) provider, returning the first truthy key. -/
def fallbackWalk (s : APIKeySettings) (provider : String) : Option String :=
  (providerPriorityList.filter (fun p => !(p == provider))).findSome?
    (fun p => directKey s p)

/-- Model of `APIKeySettings.get_key_for_provider` (api_key.py lines 67-115).  The
Python function recurses once into the default provider; the fuel argument
bounds that recursion (depth ≤ 1 whenever `default_provider` is lowercase,
which `from_env` guarantees via `.lower()`). -/
def get_key_for_provider_aux (s : APIKeySettings) : Nat → Option String → Option String
  | 0, _ => none
  | n + 1, provider? =>
    let provider :=
      match provider? with
      | some p => if p == "" then s.default_provider else pyLower p
      | none => s.default_provider
    match directKey s provider with
    | some k => some k
    | none =>
      if provider ≠ s.default_provider then
        get_key_for_provider_aux s n (some s.default_provider)
      else
        fallbackWalk s provider

/-- The `get_key_for_provider` lookup at the fuel sufficient for any lowercase default. -/
def get_key_for_provider (s : APIKeySettings) (provider? : Option String) : Option String :=
  get_key_for_provider_aux s 2 provider?

/-! ## LLM resolution (src/backend/services/translation_service.py get_llm) -/

/-- The client object which `get_llm` constructs: which vendor class the
if/elif chain picked, and which credential it was handed. -/
structure LLMClient where
  branch : String
  apiKey : Option String
deriving DecidableEq, Repr

/-- Configuration fields of `TranslationService` that `get_llm` reads, plus the
user-settings capabilities it consults. -/
structure TranslationServiceCfg where
  api_keys : APIKeySettings
  default_model : String
  modelSelectionAllowed : String → Bool
  userLLMProvider : String → String

/-- The if/elif chain of get_llm lines 90-148 selecting the vendor client.
The final `else` arm constructs ChatOpenAI with a fresh
`get_key_for_provider("openai")` lookup instead of the resolved key. -/
def clientFor (svc : TranslationServiceCfg) (provider : String) (api_key : Option String) :
    LLMClient :=
  if provider = "openai" ∨ provider = "chatgpt" then ⟨"ChatOpenAI", api_key⟩
  else if provider = "anthropic" ∨ provider = "claude" then ⟨"ChatAnthropic", api_key⟩
  else if provider = "google" ∨ provider = "vertex" ∨ provider = "grok" then
    ⟨"ChatVertexAI", api_key⟩
  else if provider = "groq" then ⟨"ChatGroq", api_key⟩
  else if provider = "cohere" then ⟨"ChatCohere", api_key⟩
  else if provider = "huggingface" then ⟨"ChatHuggingFace", api_key⟩
  else if provider = "deepseek" then ⟨"ChatOpenAI-deepseek", api_key⟩
  else if provider = "siliconflow" then ⟨"ChatOpenAI-siliconflow", api_key⟩
  else ⟨"ChatOpenAI", get_key_for_provider svc.api_keys (some "openai")⟩

/-- Model of `TranslationService.get_llm` (translation_service.py lines 53-151):
user-settings override, defaulting, lowercasing, key lookup, the in-function
fallback chain, and the vendor dispatch.  Client-construction exceptions from
the vendor SDKs are external and not modelled. -/
def get_llm (svc : TranslationServiceCfg) (provider? : Option String)
    (user? : Option String) : Except String LLMClient :=
  let requested :=
    match user? with
    | some uid =>
      if uid ≠ "" ∧ ¬ svc.modelSelectionAllowed uid then some (svc.userLLMProvider uid)
      else provider?
    | none => provider?
  let provider :=
    pyLower (match requested with
      | some p => if p == "" then svc.default_model else p
      | none => svc.default_model)
  let api_key := get_key_for_provider svc.api_keys (some provider)
  let resolved :=
    if keyTruthy api_key then (provider, api_key)
    else
      let provider₂ := svc.default_model
      let api_key₂ := get_key_for_provider svc.api_keys (some provider₂)
      if keyTruthy api_key₂ then (provider₂, api_key₂)
      else
        match providerPriorityList.findSome?
            (fun p => (get_key_for_provider svc.api_keys (some p)).map (fun k => (p, k))) with
        | some (p, k) => (p, some k)
        | none => (provider₂, none)
  if keyTruthy resolved.2 then Except.ok (clientFor svc resolved.1 resolved.2)
  else Except.error
    "No API keys configured for any provider. Please configure at least one LLM provider API key."

/-! ## Confidence estimators -/

/-- The `common_pairs` list of `TranslationService._calculate_confidence_score`. -/
def commonPairs : List (String × String) :=
  [("en", "es"), ("en", "fr"), ("en", "de"), ("en", "it")]

/-- Model of `TranslationService._calculate_confidence_score`
(translation_service.py lines 458-476). -/
def calculate_confidence_score (source_language target_language : String)
    (chunk_count : Nat) : ℚ :=
  let base_score : ℚ := mkRat 85 100
  let base_score :=
    if commonPairs.contains (source_language, target_language) ∨
        commonPairs.contains (target_language, source_language) then
      base_score + mkRat 5 100
    else base_score
  let base_score :=
    if chunk_count < 5 then base_score + mkRat 5 100
    else if chunk_count > 20 then base_score - mkRat 5 100
    else base_score
  min (mkRat 99 100) (max (mkRat 5 10) base_score)

/-- The `complex_pairs` list of `RAGTranslationService._calculate_confidence_score`. -/
def complexPairs : List (String × String) :=
  [("japanese", "english"), ("chinese", "english"), ("arabic", "english"),
   ("english", "japanese"), ("english", "chinese"), ("english", "arabic")]

/-- Model of `RAGTranslationService._calculate_confidence_score`
(rag_translation_service.py lines 419-453). -/
def rag_calculate_confidence_score (source_language target_language : String)
    (chunk_count tm_match_count : Nat) : ℚ :=
  let score : ℚ := mkRat 8 10
  let score := if chunk_count > 20 then score - mkRat 5 100 else score
  let score :=
    if tm_match_count > 0 then
      let tm_coverage : ℚ :=
        if chunk_count > 0 then (tm_match_count : ℚ) / (chunk_count : ℚ) else 0
      score + tm_coverage * mkRat 15 100
    else score
  let score :=
    if complexPairs.contains (source_language, target_language) then score - mkRat 1 10
    else score
  max 0 (min 1 score)

/-! ## Translation memory (src/backend/services/tmx_service.py) -/

/-- One entry of `TMXService.translation_units`: `variants` maps language code
to segment text, exactly the dict stored by `parse_tmx_file`. -/
structure TMUnit where
  id : String
  variants : List (String × String)
  metadata : List (String × String)
  created_at : String
  last_updated : String
deriving DecidableEq, Repr

/-- The in-memory `translation_units` index, keyed by unit id. -/
abbrev TMIndex := List (String × TMUnit)

/-- Python `dict.update`: every binding of `new` is written into `old`,
overwriting same-language variants and keeping the rest. -/
def variantsUpdate (old new : List (String × String)) : List (String × String) :=
  new.foldl (fun acc kv => dictSet acc kv.1 kv.2) old

/-- A `<tu>` element as extracted by `parse_tmx_file`: the `tuid` attribute
(or a generated uuid), its language variants, and its attribute map. -/
structure ParsedTU where
  tu_id : String
  variants : List (String × String)
  metadata : List (String × String)
deriving DecidableEq, Repr

/-- The per-unit body of `TMXService.parse_tmx_file` (tmx_service.py lines
75-108): skip units with no variants; merge variants and refresh
`last_updated` when the id exists; otherwise insert a fresh unit. -/
def importTU (idx : TMIndex) (tu : ParsedTU) (now : String) : TMIndex :=
  if tu.variants.isEmpty then idx
  else
    match dictGet? idx tu.tu_id with
    | some u =>
      dictSet idx tu.tu_id
        { u with variants := variantsUpdate u.variants tu.variants, last_updated := now }
    | none =>
      dictSet idx tu.tu_id
        { id := tu.tu_id, variants := tu.variants, metadata := tu.metadata,
          created_at := now, last_updated := now }

/-- A whole TMX file import is the fold of `importTU` over its units. -/
def parse_tmx_units (idx : TMIndex) (tus : List ParsedTU) (now : String) : TMIndex :=
  tus.foldl (fun acc tu => importTU acc tu now) idx

/-- One search result of `search_translation_memory`. -/
structure TMMatch where
  source_text : String
  target_text : String
  similarity : ℚ
  unit_id : String
deriving DecidableEq, Repr

/-- Lines 223-227 of `search_translation_memory`: the units carrying both the
source and the target language variant. -/
def relevantUnits (units : TMIndex) (source_lang target_lang : String) : List TMUnit :=
  (units.map Prod.snd).filter
    (fun u => (dictGet? u.variants source_lang).isSome &&
              (dictGet? u.variants target_lang).isSome)

/-- Lines 240-248: the matches at or above the threshold, in store order. -/
def searchMatches (units : TMIndex) (sim : String → String → ℚ)
    (text source_lang target_lang : String) (threshold : ℚ) : List TMMatch :=
  (relevantUnits units source_lang target_lang).filterMap (fun u =>
    match dictGet? u.variants source_lang, dictGet? u.variants target_lang with
    | some st, some tt =>
      if threshold ≤ sim text st then some ⟨st, tt, sim text st, u.id⟩ else none
    | _, _ => none)

/-- Model of `TMXService.search_translation_memory` (tmx_service.py lines 200-257).
The sentence-embedding model is external; `sim query sourceText` stands for
the cosine similarity `util.cos_sim` computes between their embeddings.
Embedding-model exceptions are caught by the function and yield `[]`;
`modelOk = false` models that degraded path. -/
def search_translation_memory (units : TMIndex) (modelOk : Bool)
    (sim : String → String → ℚ) (text source_lang target_lang : String)
    (threshold : ℚ) : List TMMatch :=
  if ¬ modelOk then []
  else if (relevantUnits units source_lang target_lang).isEmpty then []
  else
    sortDescBy (fun a b => decide (b.similarity < a.similarity))
      (searchMatches units sim text source_lang target_lang threshold)

/-! ## Job registry operations -/

/-- Model of `TranslationService.get_all_translations` (translation_service.py lines
504-515): collects every record of `translations_db` — the `user_id` argument
is accepted but never consulted — then sorts newest-first by `createdAt`. -/
def get_all_translations (db : TransDB) (user_id : Option String) : List Translation :=
  sortDescBy (fun a b => decide (b.createdAt < a.createdAt)) (db.map Prod.snd)

/-- An ownership-annotated job record, as spec §4.6 requires the registry to
keep (`delete ... unless the requester is the recorded owner`). -/
structure OwnedJob where
  record : Translation
  owner : Option String
deriving DecidableEq, Repr

/-- Modelled from the spec: `TranslationService.delete_translation` is invoked
by the HTTP layer (src/backend/app.py line 346) but is not defined anywhere
under src/.  Spec §4.6: `delete(id, requestingOwner) -> bool` "fails closed:
returns false (not found/forbidden) unless the requester is the recorded
owner; never throws to the caller"; on success it removes the Job and its
artifacts. -/
def delete_translation (db : List (String × OwnedJob)) (id requester : String) :
    List (String × OwnedJob) × Bool :=
  match dictGet? db id with
  | none => (db, false)
  | some j =>
    if j.owner = some requester then
      (db.filter (fun p => !(p.1 == id)), true)
    else
      (db, false)

/-! ## Language detection -/

/-- Model of `TranslationService._detect_language` (translation_service.py lines
383-411): word-count heuristic over fixed stopword lists. -/
def base_detect_language (text : String) : String :=
  let word_count := (pyWords text).length
  if word_count < 10 then "en"
  else
    let lwords := pyWords (pyLower text)
    let en_words := ["the", "and", "to", "of", "in", "is", "that"]
    let es_words := ["el", "la", "de", "en", "y", "es", "que"]
    let fr_words := ["le", "la", "de", "et", "en", "est", "que"]
    let en_count := lwords.countP (fun w => en_words.contains w)
    let es_count := lwords.countP (fun w => es_words.contains w)
    let fr_count := lwords.countP (fun w => fr_words.contains w)
    if en_count > es_count ∧ en_count > fr_count then "en"
    else if es_count > en_count ∧ es_count > fr_count then "es"
    else if fr_count > en_count ∧ fr_count > es_count then "fr"
    else "en"

/-- Model of `ThirdPartyTranslationService.detect_language`
(third_party_translation_service.py lines 63-103), reduced to the language
field which `RAGTranslationService._detect_language` extracts. -/
def detect_language_mock (text : String) : String :=
  if pyContainsAnyChar text "你好こんにちは안녕하세요" then
    if pyContains text "你好" then "chinese"
    else if pyContains text "こんにちは" then "japanese"
    else if pyContains text "안녕하세요" then "korean"
    else "chinese"
  else if pyContainsAnyChar text "áéíóúñ" then "spanish"
  else if pyContainsAnyChar text "äöüß" then "german"
  else if pyContainsAnyChar text "àèéùç" then "french"
  else "english"

/-! ## Enhancement (src/backend/services/third_party_translation_service.py) -/

/-- The wrapper which the default path of `enhance_translation` puts around
the translated text (lines 55-59). -/
def enhanceWrapper (text source_language target_language : String) : String :=
  "[Enhanced by third-party API]\n\n" ++ text ++
    "\n\n[Translation completed from " ++ source_language ++ " to " ++
    target_language ++ "]"

/-- Model of `ThirdPartyTranslationService.enhance_translation` (lines 17-61).
`webTranslate` stands for `WebTranslationService.translate_text`, which
swallows every provider failure internally and returns a string, so it is
total here. -/
def enhance_translation (webTranslate : String → String)
    (translated_text source_language target_language : String)
    (web_service : Option String) : String :=
  match web_service with
  | some ws =>
    if ws ≠ "" ∧ ws ≠ "none" then webTranslate translated_text
    else enhanceWrapper translated_text source_language target_language
  | none => enhanceWrapper translated_text source_language target_language

/-! ## RAG pipeline (src/backend/services/rag_translation_service.py) -/

/-- The `str(e)` text of the AttributeError raised at rag_translation_service.py line
476: `translations_db.get(id, {}).get("createdAt", ...)` calls `.get` on a
pydantic `Translation` instance, which has no such method. -/
def pydanticGetAttrError : String :=
  "\x27Translation\x27 object has no attribute \x27get\x27"

/-- The `str(e)` text of the AttributeError raised at line 239 when
`_create_vector_store` returned `None` and the loop still calls
`vector_store.similarity_search`. -/
def noneSimilaritySearchError : String :=
  "\x27NoneType\x27 object has no attribute \x27similarity_search\x27"

/-- Model of `RAGTranslationService._update_translation_status` (lines 455-531; the
optional database branch is disabled in the default configuration).  When the
id is already present in `translations_db`, evaluating
`translations_db.get(translation_id, {}).get("createdAt", ...)` raises the
AttributeError above before any record is written; when absent, the `{}`
default makes the expression yield `now` and a fresh record is stored. -/
def rag_update_translation_status (db : TransDB) (translation_id : String)
    (status : TranslationStatus) (original_filename target_language : String)
    (download_url : Option String) (processing_details : Option ProcessingDetails)
    (error_message : Option String) (now : String) : Except String TransDB :=
  match dictGet? db translation_id with
  | some _ => .error pydanticGetAttrError
  | none => .ok (dictSet db translation_id
      { id := translation_id, originalFileName := original_filename,
        targetLanguage := target_language, status := status,
        downloadUrl := download_url, createdAt := now,
        errorMessage := error_message, processingDetails := processing_details })

/-- External collaborators of one `process_translation_with_rag` run:
file extraction, the langchain splitter, translation-memory search results
(that service swallows its own failures), whether FAISS store creation
succeeded (its failures are caught and become `None`), LLM construction and
per-chunk generation, TMX write-through, per-user web-service setting, web
enhancement, and artifact persistence. -/
structure RAGEnv where
  extract : Except String String
  splitText : String → List String
  tmSearch : String → List TMMatch
  vectorStoreOk : Bool
  getLLMOk : Except String Unit
  llmTranslate : String → Except String String
  saveTmx : String → Except String Unit
  webServiceFor : String → String
  webTranslate : String → String
  saveTranslation : Except String String
  now : String

/-- The configuration fields of `RAGTranslationService` the run reads. -/
structure RAGCfg where
  rag_enabled : Bool
  default_model : String
deriving DecidableEq, Repr

/-- Python `user_id and user_settings_service.get_web_translation_service(user_id)`:
the service name is looked up only for a truthy user id. -/
def webServiceOf (webServiceFor : String → String) (user? : Option String) :
    Option String :=
  match user? with
  | some u => if u = "" then none else some (webServiceFor u)
  | none => none

/-- Python `llm_provider or default_model`. -/
def providerOrDefault (llm_provider : Option String) (dflt : String) : String :=
  match llm_provider with
  | some p => if p = "" then dflt else p
  | none => dflt

/-- Lines 322-325: `translation_provider` recorded in the details. -/
def translationProviderOf (web_service : Option String) : String :=
  match web_service with
  | some ws => if ws ≠ "" ∧ ws ≠ "none" then ws else "third-party-api"
  | none => "third-party-api"

/-- The translation a segment receives in the rag loop: a TM hit contributes
its stored target text plus the `"\n"` appended at line 231, otherwise the
LLM output for the chunk (the `.error` arm is never read on a successful
run). -/
def chunkTranslation (env : RAGEnv) (p : String × Option TMMatch) : String :=
  match p.2 with
  | some m => m.target_text ++ "\n"
  | none =>
    match env.llmTranslate p.1 with
    | .ok t => t
    | .error _ => ""

/-- The per-chunk loop of `process_translation_with_rag` (lines 224-288).
TM-matched chunks short-circuit (`continue`); otherwise, when RAG is enabled
and the document has more than one chunk, `similarity_search` is consulted —
which raises if the vector store is `None` — then the LLM translates the
chunk and the pair is written through to the TMX store. -/
def ragTranslateChunks (env : RAGEnv) (rag_enabled vectorStoreOk : Bool)
    (docsLen : Nat) : List (String × Option TMMatch) → Except String (List String)
  | [] => .ok []
  | (chunk, tm?) :: rest =>
    match tm? with
    | some m =>
      match ragTranslateChunks env rag_enabled vectorStoreOk docsLen rest with
      | .error e => .error e
      | .ok tl => .ok ((m.target_text ++ "\n") :: tl)
    | none =>
      if rag_enabled ∧ docsLen > 1 ∧ ¬ vectorStoreOk then
        .error noneSimilaritySearchError
      else
        match env.llmTranslate chunk with
        | .error e => .error e
        | .ok t =>
          match env.saveTmx chunk with
          | .error e => .error e
          | .ok _ =>
            match ragTranslateChunks env rag_enabled vectorStoreOk docsLen rest with
            | .error e => .error e
            | .ok tl => .ok (t :: tl)

/-- The observable outcome of one rag pipeline run: the job registry, the
(unchanged) progress tracker, the artifacts written by `save_translation`,
and the exception escaping the function, if any. -/
structure RAGRunResult where
  db : TransDB
  tracker : Tracker
  artifacts : List (String × String)
  escaped : Option String
deriving DecidableEq, Repr

/-- The `except` block of `process_translation_with_rag` (lines 371-388): a
failed-status update followed by best-effort error metadata
(`FileService.save_metadata` catches its own failures).  If the status update
itself raises — which it does whenever the id is already registered — the new
exception escapes the task and the registry keeps its previous record. -/
def ragHandleFailure (db : TransDB) (tracker : Tracker)
    (artifacts : List (String × String))
    (translation_id original_filename target_language e now : String) : RAGRunResult :=
  match rag_update_translation_status db translation_id .failed original_filename
      target_language none none (some e) now with
  | .error e₂ => { db := db, tracker := tracker, artifacts := artifacts, escaped := some e₂ }
  | .ok db₂ => { db := db₂, tracker := tracker, artifacts := artifacts, escaped := none }

/-- Model of `RAGTranslationService.process_translation_with_rag` (lines 156-388).
`_update_progress` is a stub (`pass`, lines 391-393), so none of the progress
calls touch `tracker`.  `_create_vector_store` catches its own exceptions
(returning `None`), and `_detect_language` delegates to the in-repo mock. -/
def process_translation_with_rag (env : RAGEnv) (cfg : RAGCfg) (db : TransDB)
    (tracker : Tracker) (translation_id target_language original_filename : String)
    (llm_provider user? : Option String) : RAGRunResult :=
  match rag_update_translation_status db translation_id .processing original_filename
      target_language none none none env.now with
  | .error e =>
    ragHandleFailure db tracker [] translation_id original_filename target_language e env.now
  | .ok db₁ =>
    match env.extract with
    | .error e =>
      ragHandleFailure db₁ tracker [] translation_id original_filename target_language e env.now
    | .ok document_text =>
      let source_language := detect_language_mock document_text
      let docs := env.splitText document_text
      let tm_matches := docs.map (fun d => (env.tmSearch d).head?)
      match env.getLLMOk with
      | .error e =>
        ragHandleFailure db₁ tracker [] translation_id original_filename target_language e env.now
      | .ok _ =>
        match ragTranslateChunks env cfg.rag_enabled env.vectorStoreOk docs.length
            (docs.zip tm_matches) with
        | .error e =>
          ragHandleFailure db₁ tracker [] translation_id original_filename target_language e env.now
        | .ok translated_chunks =>
          let web_translation_service := webServiceOf env.webServiceFor user?
          let final_translation := enhance_translation env.webTranslate
            (joinNN translated_chunks) source_language target_language
            web_translation_service
          match env.saveTranslation with
          | .error e =>
            ragHandleFailure db₁ tracker [] translation_id original_filename target_language e env.now
          | .ok _output_path =>
            let artifacts := [(translation_id, final_translation)]
            let confidence_score := rag_calculate_confidence_score source_language
              target_language docs.length (tm_matches.countP (fun m => m.isSome))
            let details : ProcessingDetails :=
              { engine := "langchain-rag",
                model := providerOrDefault llm_provider cfg.default_model,
                vectorStore := "faiss",
                documentChunks := docs.length,
                ragEnabled := cfg.rag_enabled,
                translationProvider := some (translationProviderOf web_translation_service),
                agentEnabled := true,
                confidenceScore := some confidence_score }
            match rag_update_translation_status db₁ translation_id .completed
                original_filename target_language
                (some ("/api/translation/download/" ++ translation_id))
                (some details) none env.now with
            | .error e =>
              ragHandleFailure db₁ tracker artifacts translation_id original_filename
                target_language e env.now
            | .ok db₂ =>
              { db := db₂, tracker := tracker, artifacts := artifacts, escaped := none }

/-! ## Base pipeline (src/backend/services/translation_service.py) -/

/-- External collaborators of one `process_translation` run. -/
structure BaseEnv where
  extract : Except String String
  splitText : String → List String
  createVectorStore : Except String Unit
  agentSetup : Except String Unit
  agentRun : String → Except String String
  webServiceFor : String → String
  webTranslate : String → String
  saveTranslation : Except String String
  now : String

/-- The observable outcome of one base pipeline run.
`segCompletionProgress` records, for each chunk the agent finished, the value
`progress_tracker.get(translation_id, 0)` held at that moment — the quantity
spec §4.5 makes a claim about. -/
structure BaseRunResult where
  db : TransDB
  tracker : Tracker
  artifacts : List (String × String)
  segCompletionProgress : List ℚ
deriving DecidableEq, Repr

/-- Python `translations_db[id].createdAt if id in translations_db else now`. -/
def createdAtOf (db : TransDB) (translation_id fallback : String) : String :=
  match dictGet? db translation_id with
  | some t => t.createdAt
  | none => fallback

/-- The outer `except` block of `process_translation` (lines 324-342):
replaces the record with a Failed one carrying `str(e)` verbatim, then writes
best-effort error metadata. -/
def baseHandleFailure (db : TransDB) (tracker : Tracker)
    (artifacts : List (String × String)) (obs : List ℚ)
    (translation_id original_filename target_language e now : String) : BaseRunResult :=
  { db := dictSet db translation_id
      { id := translation_id, originalFileName := original_filename,
        targetLanguage := target_language, status := .failed,
        downloadUrl := none, createdAt := createdAtOf db translation_id now,
        errorMessage := some e, processingDetails := none },
    tracker := tracker, artifacts := artifacts, segCompletionProgress := obs }

/-- Model of `TranslationService._translate_with_agent` (lines 430-456): translates the
chunks in order with no progress updates in between, recording the tracker
value observed as each chunk completes. -/
def baseTranslateLoop (env : BaseEnv) (tracker : Tracker) (translation_id : String) :
    List String → Except String (List String × List ℚ)
  | [] => .ok ([], [])
  | chunk :: rest =>
    match env.agentRun chunk with
    | .error e => .error e
    | .ok t =>
      let obs := dictGetD tracker translation_id 0
      match baseTranslateLoop env tracker translation_id rest with
      | .error e => .error e
      | .ok (ts, obss) => .ok (t :: ts, obs :: obss)

/-- Model of `TranslationService.process_translation` (translation_service.py lines
153-342): the non-RAG pipeline, including its inner LLM-initialization
`try/except` which fails the job with a prefixed message and returns early. -/
def process_translation (env : BaseEnv) (svc : TranslationServiceCfg) (db : TransDB)
    (tracker : Tracker) (translation_id target_language original_filename : String)
    (llm_provider user? : Option String) : BaseRunResult :=
  let db₁ := dictSet db translation_id
    { id := translation_id, originalFileName := original_filename,
      targetLanguage := target_language, status := .processing,
      downloadUrl := none, createdAt := env.now,
      errorMessage := none, processingDetails := none }
  let tr₁ := dictSet tracker translation_id (mkRat 1 10)
  let tr₂ := dictSet tr₁ translation_id (mkRat 2 10)
  match env.extract with
  | .error e =>
    baseHandleFailure db₁ tr₂ [] [] translation_id original_filename target_language e env.now
  | .ok document_text =>
    let tr₃ := dictSet tr₂ translation_id (mkRat 3 10)
    let source_language := base_detect_language document_text
    let tr₄ := dictSet tr₃ translation_id (mkRat 4 10)
    let docs := env.splitText document_text
    let tr₅ := dictSet tr₄ translation_id (mkRat 5 10)
    match env.createVectorStore with
    | .error e =>
      baseHandleFailure db₁ tr₅ [] [] translation_id original_filename target_language e env.now
    | .ok _ =>
      let tr₆ := dictSet tr₅ translation_id (mkRat 6 10)
      let llmInit : Except String Unit :=
        match get_llm svc llm_provider user? with
        | .error e => .error e
        | .ok _ => env.agentSetup
      match llmInit with
      | .error e =>
        { db := dictSet db₁ translation_id
            { id := translation_id, originalFileName := original_filename,
              targetLanguage := target_language, status := .failed,
              downloadUrl := none, createdAt := createdAtOf db₁ translation_id env.now,
              errorMessage := some ("LLM initialization failed: " ++ e),
              processingDetails := none },
          tracker := tr₆, artifacts := [], segCompletionProgress := [] }
      | .ok _ =>
        let tr₇ := dictSet tr₆ translation_id (mkRat 7 10)
        match baseTranslateLoop env tr₇ translation_id docs with
        | .error e =>
          baseHandleFailure db₁ tr₇ [] [] translation_id original_filename target_language e env.now
        | .ok (translated_chunks, obss) =>
          let web_translation_service := webServiceOf env.webServiceFor user?
          let tr₈ := dictSet tr₇ translation_id (mkRat 8 10)
          let final_translation := enhance_translation env.webTranslate
            (joinNN translated_chunks) source_language target_language
            web_translation_service
          let tr₉ := dictSet tr₈ translation_id (mkRat 9 10)
          match env.saveTranslation with
          | .error e =>
            baseHandleFailure db₁ tr₉ [] obss translation_id original_filename target_language e env.now
          | .ok _output_path =>
            let confidence_score := calculate_confidence_score source_language
              target_language docs.length
            let details : ProcessingDetails :=
              { engine := "langchain",
                model := providerOrDefault llm_provider svc.default_model,
                vectorStore := "faiss",
                documentChunks := docs.length,
                ragEnabled := true,
                translationProvider := some (translationProviderOf web_translation_service),
                agentEnabled := true,
                confidenceScore := some confidence_score }
            let db₂ := dictSet db₁ translation_id
              { id := translation_id, originalFileName := original_filename,
                targetLanguage := target_language, status := .completed,
                downloadUrl := some ("/api/translation/download/" ++ translation_id),
                createdAt := createdAtOf db₁ translation_id env.now,
                errorMessage := none, processingDetails := some details }
            let tr₁₀ := dictSet tr₉ translation_id 1
            { db := db₂, tracker := tr₁₀,
              artifacts := [(translation_id, final_translation)],
              segCompletionProgress := obss }

/-! ## Chunker degenerate case -/

/-- Modelled from the spec: the Chunker (§4.2) is langchain's
`RecursiveCharacterTextSplitter`, external to src/; the property the spec
states for it and that the pipeline claims rely on is "Degenerate input
(empty string) produces zero segments." -/
def chunkerEmptyYieldsNoSegments (split : String → List String) : Prop :=
  split "" = []

/-! ## Concrete fixtures for the claim theorems and witnesses -/

/-- A two-unit demo store used to witness the search postcondition. -/
def tmxDemoUnits : TMIndex :=
  [("u1", { id := "u1", variants := [("en", "hello"), ("es", "hola")],
            metadata := [], created_at := "t0", last_updated := "t0" }),
   ("u2", { id := "u2", variants := [("en", "bye"), ("es", "adios")],
            metadata := [], created_at := "t0", last_updated := "t0" }),
   ("u3", { id := "u3", variants := [("en", "cat")],
            metadata := [], created_at := "t0", last_updated := "t0" })]

/-- A concrete similarity assignment for the witness. -/
def tmxDemoSim : String → String → ℚ :=
  fun _ s => if s = "hello" then mkRat 9 10 else if s = "bye" then mkRat 1 2 else mkRat 1 5

/-- A job record owned by `"userB"`, for the delete witness. -/
def demoOwnedJob : OwnedJob :=
  { record := { id := "job1", originalFileName := "doc.txt",
                targetLanguage := "es", status := .completed,
                downloadUrl := some "/api/translation/download/job1",
                createdAt := "t0" },
    owner := some "userB" }

/-- A one-job demo registry, for the delete witness. -/
def demoOwnedDb : List (String × OwnedJob) :=
  [("job1", demoOwnedJob)]

/-- A registry holding another user's job, for the C10 witness. -/
def demoHistoryDb : TransDB :=
  [("jobB",
    { id := "jobB", originalFileName := "b.txt", targetLanguage := "fr",
      status := .completed, downloadUrl := some "/api/translation/download/jobB",
      createdAt := "2024-01-01" })]

/-- The credential configuration of claim C1's scenario: anthropic is the only
provider with a configured key. -/
def anthropicOnlyKeys : APIKeySettings :=
  { anthropic_key := some "sk-ant-test", default_provider := "openai" }

/-- The `TranslationService` configuration around it (defaults from the
environment: default model `openai`, model selection allowed). -/
def anthropicOnlySvc : TranslationServiceCfg :=
  { api_keys := anthropicOnlyKeys, default_model := "openai",
    modelSelectionAllowed := fun _ => true, userLLMProvider := fun _ => "openai" }

/-- The default RAG configuration (`rag_enabled` true, default provider
`openai`). -/
def ragDemoCfg : RAGCfg :=
  { rag_enabled := true, default_model := "openai" }

/-- A RAG environment whose extraction stage raises `"boom"`; every other
collaborator behaves normally. -/
def ragFailEnv : RAGEnv :=
  { extract := .error "boom",
    splitText := fun t => if t == "" then [] else [t],
    tmSearch := fun _ => [],
    vectorStoreOk := true,
    getLLMOk := .ok (),
    llmTranslate := fun _ => .ok "x",
    saveTmx := fun _ => .ok (),
    webServiceFor := fun _ => "none",
    webTranslate := fun t => t,
    saveTranslation := .ok "translations/job1_translated.txt",
    now := "t0" }

/-- A RAG environment for an empty document: extraction yields `""`, FAISS
creation fails on zero documents (caught, store becomes `None`), everything
else behaves normally. -/
def ragEmptyEnv : RAGEnv :=
  { extract := .ok "",
    splitText := fun t => if t == "" then [] else [t],
    tmSearch := fun _ => [],
    vectorStoreOk := false,
    getLLMOk := .ok (),
    llmTranslate := fun _ => .ok "x",
    saveTmx := fun _ => .ok (),
    webServiceFor := fun _ => "none",
    webTranslate := fun t => t,
    saveTranslation := .ok "translations/job1_translated.txt",
    now := "t0" }

/-- A RAG environment for the single-segment scenario of claim C3: no TM
matches, the provider returns the Spanish sentence, no web service. -/
def ragSingleEnv : RAGEnv :=
  { extract := .ok "Hello world, this is a test.",
    splitText := fun t => if t == "" then [] else [t],
    tmSearch := fun _ => [],
    vectorStoreOk := true,
    getLLMOk := .ok (),
    llmTranslate := fun _ => .ok "Hola mundo, esta es una prueba.",
    saveTmx := fun _ => .ok (),
    webServiceFor := fun _ => "none",
    webTranslate := fun t => t,
    saveTranslation := .ok "translations/job1_translated.txt",
    now := "t0" }

/-- The base service configuration for the progress scenario: an openai key
is configured, model selection is allowed. -/
def baseDemoSvc : TranslationServiceCfg :=
  { api_keys := { openai_key := some "sk-openai-test", default_provider := "openai" },
    default_model := "openai",
    modelSelectionAllowed := fun _ => true, userLLMProvider := fun _ => "openai" }

/-- A base-pipeline environment producing one segment whose agent translation
succeeds. -/
def baseDemoEnv : BaseEnv :=
  { extract := .ok "hello world",
    splitText := fun t => if t == "" then [] else [t],
    createVectorStore := .ok (),
    agentSetup := .ok (),
    agentRun := fun _ => .ok "X",
    webServiceFor := fun _ => "none",
    webTranslate := fun t => t,
    saveTranslation := .ok "translations/job1_translated.txt",
    now := "t0" }

/-! ## Dictionary and sorting lemmas -/

theorem dictGet?_dictSet_self {α : Type} (d : List (String × α)) (k : String) (v : α) :
    dictGet? (dictSet d k v) k = some v := by
  induction d with
  | nil => simp [dictSet, dictGet?]
  | cons p rest ih =>
    by_cases h : p.1 = k
    · simp [dictSet, dictGet?, h]
    · simp [dictSet, dictGet?, h, ih]

theorem dictGet?_dictSet_ne {α : Type} (d : List (String × α)) (k k' : String) (v : α)
    (h : k ≠ k') : dictGet? (dictSet d k v) k' = dictGet? d k' := by
  induction d with
  | nil => simp [dictSet, dictGet?, h]
  | cons p rest ih =>
    by_cases hp : p.1 = k
    · simp [dictSet, dictGet?, hp, h]
    · simp [dictSet, dictGet?, hp, ih]

theorem isSome_dictGet?_dictSet {α : Type} (d : List (String × α)) (k k' : String) (v : α)
    (h : (dictGet? d k').isSome) : (dictGet? (dictSet d k v) k').isSome := by
  by_cases hk : k = k'
  · subst hk; simp [dictGet?_dictSet_self]
  · rwa [dictGet?_dictSet_ne d k k' v hk]

theorem keys_dictSet {α : Type} (d : List (String × α)) (k : String) (v : α) :
    (dictSet d k v).map Prod.fst =
      if (dictGet? d k).isSome then d.map Prod.fst else d.map Prod.fst ++ [k] := by
  induction d with
  | nil => simp [dictSet, dictGet?]
  | cons p rest ih =>
    by_cases hp : p.1 = k
    · simp [dictSet, dictGet?, hp]
    · simp only [dictSet, dictGet?, if_neg hp, List.map_cons, ih]
      by_cases hs : (dictGet? rest k).isSome <;> simp [hs]

theorem dictGet?_isSome_iff {α : Type} (d : List (String × α)) (k : String) :
    (dictGet? d k).isSome ↔ k ∈ d.map Prod.fst := by
  induction d with
  | nil => simp [dictGet?]
  | cons p rest ih =>
    by_cases hp : p.1 = k
    · simp [dictGet?, hp]
    · simp only [dictGet?, if_neg hp, List.map_cons, List.mem_cons, ih]
      constructor
      · exact Or.inr
      · rintro (h | h)
        · exact absurd h.symm hp
        · exact h

theorem countKey_dictSet_nodup {α : Type} (d : List (String × α)) (k : String) (v : α)
    (h : (d.map Prod.fst).Nodup) : countKey (dictSet d k v) k = 1 := by
  induction d with
  | nil => simp [dictSet, countKey, List.countP_cons]
  | cons p rest ih =>
    simp only [List.map_cons, List.nodup_cons] at h
    by_cases hp : p.1 = k
    · have hrest : List.countP (fun q => decide (q.1 = k)) rest = 0 := by
        rw [List.countP_eq_zero]
        intro q hq
        simp only [decide_eq_true_eq]
        intro hqk
        exact h.1 (hp ▸ hqk ▸ List.mem_map_of_mem Prod.fst hq)
      simp [dictSet, hp, countKey, List.countP_cons, hrest]
    · have hih := ih h.2
      rw [countKey] at hih
      simp [dictSet, if_neg hp, countKey, List.countP_cons, hp, hih]

theorem nodupKeys_dictSet {α : Type} (d : List (String × α)) (k : String) (v : α)
    (h : (d.map Prod.fst).Nodup) : ((dictSet d k v).map Prod.fst).Nodup := by
  rw [keys_dictSet]
  by_cases hs : (dictGet? d k).isSome
  · simp [hs, h]
  · have hk : k ∉ d.map Prod.fst := fun hmem => hs ((dictGet?_isSome_iff d k).mpr hmem)
    simp [hs, List.nodup_append, h, hk]

theorem mem_insertDescBy {α : Type} (gt : α → α → Bool) (a b : α) (l : List α) :
    b ∈ insertDescBy gt a l ↔ b = a ∨ b ∈ l := by
  induction l with
  | nil => simp [insertDescBy]
  | cons x xs ih =>
    by_cases h : gt a x
    · simp [insertDescBy, h]
    · simp [insertDescBy, h, ih]
      tauto

theorem mem_sortDescBy {α : Type} (gt : α → α → Bool) (b : α) (l : List α) :
    b ∈ sortDescBy gt l ↔ b ∈ l := by
  induction l with
  | nil => simp [sortDescBy]
  | cons x xs ih =>
    simp only [sortDescBy, List.foldr] at ih ⊢
    rw [mem_insertDescBy, ih, List.mem_cons]

theorem pairwise_insertDescBy {α : Type} (gt : α → α → Bool) (R : α → α → Prop)
    (hT : ∀ a b, gt a b = true → R a b) (hF : ∀ a b, gt a b = false → R b a)
    (htrans : ∀ a b c, R a b → R b c → R a c)
    (a : α) (l : List α) (hl : l.Pairwise R) :
    (insertDescBy gt a l).Pairwise R := by
  induction l with
  | nil => simp [insertDescBy]
  | cons x xs ih =>
    rcases List.pairwise_cons.mp hl with ⟨hx, hxs⟩
    by_cases h : gt a x
    · rw [insertDescBy, if_pos h]
      refine List.pairwise_cons.mpr ⟨?_, hl⟩
      intro b hb
      rcases List.mem_cons.mp hb with hb | hb
      · exact hb ▸ hT a x h
      · exact htrans a x b (hT a x h) (hx b hb)
    · rw [insertDescBy, if_neg h]
      refine List.pairwise_cons.mpr ⟨?_, ih hxs⟩
      intro b hb
      rcases (mem_insertDescBy gt a b xs).mp hb with hb | hb
      · exact hb ▸ hF a x (by simpa using h)
      · exact hx b hb

theorem pairwise_sortDescBy {α : Type} (gt : α → α → Bool) (R : α → α → Prop)
    (hT : ∀ a b, gt a b = true → R a b) (hF : ∀ a b, gt a b = false → R b a)
    (htrans : ∀ a b c, R a b → R b c → R a c)
    (l : List α) : (sortDescBy gt l).Pairwise R := by
  induction l with
  | nil => simp [sortDescBy]
  | cons x xs ih =>
    exact pairwise_insertDescBy gt R hT hF htrans x _ ih

/-! ## Supporting lemmas for the claim theorems -/

theorem isSome_variantsUpdate (old new : List (String × String)) (l : String)
    (h : (dictGet? old l).isSome) : (dictGet? (variantsUpdate old new) l).isSome := by
  induction new generalizing old with
  | nil => exact h
  | cons kv rest ih =>
    exact ih (dictSet old kv.1 kv.2) (isSome_dictGet?_dictSet old kv.1 l kv.2 h)

/-! ## Claim theorems -/

/-- Claim C7: for every source language, target language, chunk count and
translation-memory match count, the RAG estimator's score lies in [0,1], and
the base service's stricter clamp keeps its score within [0.5, 0.99], which is
contained in [0,1]. -/
theorem confidence_score_bounds (sl tl : String) (chunk_count tm_match_count : Nat) :
    (0 ≤ rag_calculate_confidence_score sl tl chunk_count tm_match_count ∧
      rag_calculate_confidence_score sl tl chunk_count tm_match_count ≤ 1) ∧
    (mkRat 1 2 ≤ calculate_confidence_score sl tl chunk_count ∧
      calculate_confidence_score sl tl chunk_count ≤ mkRat 99 100) ∧
    (0 ≤ calculate_confidence_score sl tl chunk_count ∧
      calculate_confidence_score sl tl chunk_count ≤ 1) := by
  refine ⟨⟨?_, ?_⟩, ⟨?_, ?_⟩, ?_, ?_⟩
  · simp only [rag_calculate_confidence_score]
    exact le_max_left 0 _
  · simp only [rag_calculate_confidence_score]
    exact max_le (by decide) (min_le_left 1 _)
  · simp only [calculate_confidence_score]
    exact le_min (by decide) (le_trans (by decide) (le_max_left (mkRat 5 10) _))
  · simp only [calculate_confidence_score]
    exact min_le_left _ _
  · simp only [calculate_confidence_score]
    exact le_trans (by decide : (0 : ℚ) ≤ mkRat 1 2)
      (le_min (by decide) (le_trans (by decide) (le_max_left (mkRat 5 10) _)))
  · simp only [calculate_confidence_score]
    exact le_trans (min_le_left _ _) (by decide)

/-- Claim C4: every match returned by `search_translation_memory` has
similarity at least the requested threshold, and the returned list is sorted
in descending order of similarity. -/
theorem search_respects_threshold_and_order (units : TMIndex) (modelOk : Bool)
    (sim : String → String → ℚ) (text source_lang target_lang : String)
    (threshold : ℚ) :
    (∀ m ∈ search_translation_memory units modelOk sim text source_lang target_lang
        threshold, threshold ≤ m.similarity) ∧
    (search_translation_memory units modelOk sim text source_lang target_lang
        threshold).Pairwise (fun a b => b.similarity ≤ a.similarity) := by
  unfold search_translation_memory
  split
  · simp
  · split
    · simp
    · constructor
      · intro m hm
        rw [mem_sortDescBy] at hm
        simp only [searchMatches] at hm
        rcases List.mem_filterMap.mp hm with ⟨u, _, hf⟩
        cases hs : dictGet? u.variants source_lang with
        | none => rw [hs] at hf; cases hf
        | some st =>
          cases ht : dictGet? u.variants target_lang with
          | none => rw [hs, ht] at hf; cases hf
          | some tt =>
            rw [hs, ht] at hf
            simp only at hf
            by_cases hth : threshold ≤ sim text st
            · rw [if_pos hth] at hf
              cases hf
              exact hth
            · rw [if_neg hth] at hf
              cases hf
      · exact pairwise_sortDescBy
          (fun (a b : TMMatch) => decide (b.similarity < a.similarity))
          (fun (a b : TMMatch) => b.similarity ≤ a.similarity)
          (fun a b h => le_of_lt (of_decide_eq_true h))
          (fun a b h => le_of_not_lt (of_decide_eq_false h))
          (fun a b c hab hbc => le_trans hbc hab) _

/-- Witness for C4 at a concrete store, query and threshold. -/
theorem search_respects_threshold_and_order_witness :
    search_translation_memory tmxDemoUnits true tmxDemoSim "hi" "en" "es" (mkRat 7 10) =
      [{ source_text := "hello", target_text := "hola", similarity := mkRat 9 10,
         unit_id := "u1" }] ∧
    (∀ m ∈ search_translation_memory tmxDemoUnits true tmxDemoSim "hi" "en" "es"
        (mkRat 7 10), mkRat 7 10 ≤ m.similarity) :=
  ⟨by decide,
   (search_respects_threshold_and_order tmxDemoUnits true tmxDemoSim "hi" "en" "es"
      (mkRat 7 10)).1⟩

/-- Claim C5: importing the same `<tu>` twice leaves exactly one entry for its
id; the second import refreshes `last_updated` and merges variants, never
deleting a previously stored variant. -/
theorem importTU_merge_idempotent (idx : TMIndex) (tu : ParsedTU) (t₁ t₂ : String)
    (hwf : (idx.map Prod.fst).Nodup) (hne : tu.variants.isEmpty = false) :
    countKey (importTU (importTU idx tu t₁) tu t₂) tu.tu_id = 1 ∧
    ∃ u₁ u₂,
      dictGet? (importTU idx tu t₁) tu.tu_id = some u₁ ∧
      dictGet? (importTU (importTU idx tu t₁) tu t₂) tu.tu_id = some u₂ ∧
      u₂.last_updated = t₂ ∧
      u₂.variants = variantsUpdate u₁.variants tu.variants ∧
      (∀ l, (dictGet? u₁.variants l).isSome → (dictGet? u₂.variants l).isSome) := by
  have hget₁ : ∃ u₁, dictGet? (importTU idx tu t₁) tu.tu_id = some u₁ := by
    unfold importTU
    rw [hne]
    cases h₀ : dictGet? idx tu.tu_id with
    | some u₀ => exact ⟨_, dictGet?_dictSet_self idx tu.tu_id _⟩
    | none => exact ⟨_, dictGet?_dictSet_self idx tu.tu_id _⟩
  rcases hget₁ with ⟨u₁, hu₁⟩
  have hwf₁ : ((importTU idx tu t₁).map Prod.fst).Nodup := by
    unfold importTU
    rw [hne]
    cases h₀ : dictGet? idx tu.tu_id with
    | some u₀ => exact nodupKeys_dictSet idx tu.tu_id _ hwf
    | none => exact nodupKeys_dictSet idx tu.tu_id _ hwf
  have hstep : importTU (importTU idx tu t₁) tu t₂ =
      dictSet (importTU idx tu t₁) tu.tu_id
        { u₁ with variants := variantsUpdate u₁.variants tu.variants,
                  last_updated := t₂ } := by
    conv_lhs => rw [importTU]
    rw [hne, hu₁]
    simp
  refine ⟨?_, u₁,
    { u₁ with variants := variantsUpdate u₁.variants tu.variants, last_updated := t₂ },
    hu₁, ?_, rfl, rfl, ?_⟩
  · rw [hstep]
    exact countKey_dictSet_nodup _ tu.tu_id _ hwf₁
  · rw [hstep]
    exact dictGet?_dictSet_self _ tu.tu_id _
  · intro l h
    exact isSome_variantsUpdate u₁.variants tu.variants l h

/-- Witness for C5: a fresh unit imported twice into an empty index. -/
theorem importTU_merge_idempotent_witness :
    (([] : TMIndex).map Prod.fst).Nodup ∧
    (ParsedTU.mk "u1" [("en", "hello"), ("es", "hola")] []).variants.isEmpty = false ∧
    countKey
      (importTU (importTU [] (ParsedTU.mk "u1" [("en", "hello"), ("es", "hola")] []) "t1")
        (ParsedTU.mk "u1" [("en", "hello"), ("es", "hola")] []) "t2") "u1" = 1 :=
  ⟨by decide, by decide,
   (importTU_merge_idempotent [] (ParsedTU.mk "u1" [("en", "hello"), ("es", "hola")] [])
      "t1" "t2" (by decide) (by decide)).1⟩

/-- Claim C6 (spec-modelled): deleting a job owned by another user returns
false without raising, and the job record remains retrievable unchanged. -/
theorem delete_translation_fails_closed (db : List (String × OwnedJob))
    (id uA uB : String) (job : OwnedJob)
    (hjob : dictGet? db id = some job) (howner : job.owner = some uB)
    (hne : uA ≠ uB) :
    (delete_translation db id uA).2 = false ∧
    dictGet? (delete_translation db id uA).1 id = some job := by
  have hnot : ¬ (job.owner = some uA) := by
    rw [howner]
    intro h
    exact hne (Option.some.inj h).symm
  unfold delete_translation
  simp [hjob, hnot]

/-- Witness for C6: `"userA"` cannot delete `"userB"`'s job. -/
theorem delete_translation_fails_closed_witness :
    (delete_translation demoOwnedDb "job1" "userA").2 = false ∧
    dictGet? (delete_translation demoOwnedDb "job1" "userA").1 "job1" =
      some demoOwnedJob :=
  ⟨(delete_translation_fails_closed demoOwnedDb "job1" "userA" "userB" demoOwnedJob
      (by decide) (by decide) (by decide)).1,
   (delete_translation_fails_closed demoOwnedDb "job1" "userA" "userB" demoOwnedJob
      (by decide) (by decide) (by decide)).2⟩

/-- Claim C10 (implicit): `get_all_translations` never consults its `user_id`
argument — every stored job record is returned to every caller. -/
theorem get_all_translations_ignores_owner (db : TransDB) (uA uB : Option String) :
    get_all_translations db uA = get_all_translations db uB ∧
    ∀ p ∈ db, p.2 ∈ get_all_translations db uA := by
  refine ⟨rfl, ?_⟩
  intro p hp
  unfold get_all_translations
  rw [mem_sortDescBy]
  exact List.mem_map_of_mem Prod.snd hp

/-- Witness for C10: user A's history listing contains user B's job. -/
theorem get_all_translations_ignores_owner_witness :
    (demoHistoryDb.head?.map Prod.snd).isSome ∧
    ∀ p ∈ demoHistoryDb, p.2 ∈ get_all_translations demoHistoryDb (some "userA") :=
  ⟨by decide,
   (get_all_translations_ignores_owner demoHistoryDb (some "userA") (some "userB")).2⟩

/-- Claim C1 (code-bug evaluation): with anthropic the only configured
provider, `get_llm("openai")` builds a ChatOpenAI client — the requested
provider's branch — holding the anthropic credential, because
`get_key_for_provider` falls back silently without telling the caller which
provider the key belongs to; the anthropic provider is never selected. -/
theorem get_llm_fallback_provider_mismatch :
    get_llm anthropicOnlySvc (some "openai") none =
      Except.ok { branch := "ChatOpenAI", apiKey := some "sk-ant-test" } := by
  rfl

/-! ## Pipeline lemmas -/

theorem dictGetD_dictSet_self {α : Type} (d : List (String × α)) (k : String)
    (v dflt : α) : dictGetD (dictSet d k v) k dflt = v := by
  simp [dictGetD, dictGet?_dictSet_self]

theorem ragHandleFailure_artifacts (db : TransDB) (tracker : Tracker)
    (artifacts : List (String × String)) (tid orig tl e now : String) :
    (ragHandleFailure db tracker artifacts tid orig tl e now).artifacts = artifacts := by
  unfold ragHandleFailure
  cases rag_update_translation_status db tid .failed orig tl none none (some e) now <;> rfl

theorem ragHandleFailure_tracker (db : TransDB) (tracker : Tracker)
    (artifacts : List (String × String)) (tid orig tl e now : String) :
    (ragHandleFailure db tracker artifacts tid orig tl e now).tracker = tracker := by
  unfold ragHandleFailure
  cases rag_update_translation_status db tid .failed orig tl none none (some e) now <;> rfl

theorem ragTranslateChunks_ok (env : RAGEnv) (re vs : Bool) (n : Nat) :
    ∀ (pairs : List (String × Option TMMatch)) (outs : List String),
      ragTranslateChunks env re vs n pairs = .ok outs →
      outs = pairs.map (chunkTranslation env) := by
  intro pairs
  induction pairs with
  | nil =>
    intro outs h
    simp only [ragTranslateChunks] at h
    cases h
    rfl
  | cons p rest ih =>
    intro outs h
    obtain ⟨chunk, tm?⟩ := p
    cases tm? with
    | some m =>
      simp only [ragTranslateChunks] at h
      cases hrec : ragTranslateChunks env re vs n rest with
      | error e => rw [hrec] at h; cases h
      | ok tl =>
        rw [hrec] at h
        cases h
        simp [chunkTranslation, ih tl hrec]
    | none =>
      simp only [ragTranslateChunks] at h
      by_cases hvs : re ∧ n > 1 ∧ ¬ vs
      · rw [if_pos hvs] at h; cases h
      · rw [if_neg hvs] at h
        cases hllm : env.llmTranslate chunk with
        | error e => rw [hllm] at h; cases h
        | ok t =>
          rw [hllm] at h
          cases htmx : env.saveTmx chunk with
          | error e => rw [htmx] at h; cases h
          | ok u =>
            rw [htmx] at h
            cases hrec : ragTranslateChunks env re vs n rest with
            | error e => rw [hrec] at h; cases h
            | ok tl =>
              rw [hrec] at h
              cases h
              simp [chunkTranslation, hllm, ih tl hrec]

theorem baseTranslateLoop_obs (env : BaseEnv) (tracker : Tracker) (tid : String) :
    ∀ (docs ts : List String) (obss : List ℚ),
      baseTranslateLoop env tracker tid docs = .ok (ts, obss) →
      ∀ p ∈ obss, p = dictGetD tracker tid 0 := by
  intro docs
  induction docs with
  | nil =>
    intro ts obss h p hp
    simp only [baseTranslateLoop] at h
    cases h
    cases hp
  | cons chunk rest ih =>
    intro ts obss h p hp
    simp only [baseTranslateLoop] at h
    cases hrun : env.agentRun chunk with
    | error e => rw [hrun] at h; cases h
    | ok t =>
      rw [hrun] at h
      cases hrec : baseTranslateLoop env tracker tid rest with
      | error e => rw [hrec] at h; cases h
      | ok pair =>
        obtain ⟨ts', obss'⟩ := pair
        rw [hrec] at h
        cases h
        rcases List.mem_cons.mp hp with hp | hp
        · exact hp
        · exact ih ts' obss' hrec p hp

/-! ## Pipeline claim theorems -/

/-- Claim C2 (code-bug evaluation): when extraction raises `"boom"` in a RAG
run, the job is left in Processing with no error message — not Failed with
`"boom"` — because the failure handler's own status update raises
AttributeError (pydantic `Translation` has no `.get`), which escapes the
task. -/
theorem rag_failure_leaves_job_processing :
    ((process_translation_with_rag ragFailEnv ragDemoCfg [] [] "job1" "es" "doc.txt"
        none none).db.map (fun p => (p.1, p.2.status, p.2.errorMessage)) =
      [("job1", TranslationStatus.processing, none)]) ∧
    (process_translation_with_rag ragFailEnv ragDemoCfg [] [] "job1" "es" "doc.txt"
        none none).escaped = some pydanticGetAttrError := by
  exact ⟨rfl, rfl⟩

/-- Claim C8 (code-bug evaluation): an empty document does produce zero
segments and flows through the loop trivially — the artifact (the enhancement
wrapper around the empty string) is even written — but the completion status
update raises AttributeError, the failure handler raises again, and the job
is left in Processing rather than Completed. -/
theorem rag_empty_document_stuck_processing :
    chunkerEmptyYieldsNoSegments ragEmptyEnv.splitText ∧
    ((process_translation_with_rag ragEmptyEnv ragDemoCfg [] [] "job1" "es" "doc.txt"
        none none).db.map (fun p => (p.1, p.2.status, p.2.errorMessage)) =
      [("job1", TranslationStatus.processing, none)]) ∧
    (process_translation_with_rag ragEmptyEnv ragDemoCfg [] [] "job1" "es" "doc.txt"
        none none).escaped = some pydanticGetAttrError ∧
    (process_translation_with_rag ragEmptyEnv ragDemoCfg [] [] "job1" "es" "doc.txt"
        none none).artifacts = [("job1", enhanceWrapper "" "english" "es")] := by
  exact ⟨rfl, rfl, rfl, rfl⟩

/-- Counterexample to claim C3 as stated: for a single-segment document whose
provider returns `T` with no enhancement service configured, the persisted
artifact is the third-party wrapper around `T`, not `T` itself. -/
theorem rag_artifact_not_plain_translation :
    (process_translation_with_rag ragSingleEnv ragDemoCfg [] [] "job1" "es" "doc.txt"
        none none).artifacts =
      [("job1", enhanceWrapper "Hola mundo, esta es una prueba." "english" "es")] ∧
    enhanceWrapper "Hola mundo, esta es una prueba." "english" "es" ≠
      "Hola mundo, esta es una prueba." := by
  exact ⟨rfl, by decide⟩

/-- Claim C3 (amended): the artifact written by a successful save equals the
enhancement step applied to the `"\n\n"`-join of the per-segment translations
taken in index order — TM-filled segments contributing their stored target
text plus a trailing newline, LLM-filled segments their generated text. -/
theorem rag_artifact_is_enhanced_ordered_join :
    (∀ (env : RAGEnv) (re vs : Bool) (n : Nat)
       (pairs : List (String × Option TMMatch)) (outs : List String),
       ragTranslateChunks env re vs n pairs = .ok outs →
       outs = pairs.map (chunkTranslation env)) ∧
    (∀ (env : RAGEnv) (cfg : RAGCfg) (db : TransDB) (tracker : Tracker)
       (tid tl orig : String) (prov user? : Option String)
       (text path : String) (outs : List String),
       dictGet? db tid = none →
       env.extract = .ok text →
       env.getLLMOk = .ok () →
       ragTranslateChunks env cfg.rag_enabled env.vectorStoreOk
           (env.splitText text).length
           ((env.splitText text).zip
             ((env.splitText text).map (fun d => (env.tmSearch d).head?))) = .ok outs →
       env.saveTranslation = .ok path →
       (process_translation_with_rag env cfg db tracker tid tl orig prov user?).artifacts =
         [(tid, enhance_translation env.webTranslate (joinNN outs)
             (detect_language_mock text) tl (webServiceOf env.webServiceFor user?))]) := by
  constructor
  · exact ragTranslateChunks_ok
  · intro env cfg db tracker tid tl orig prov user? text path outs h₀ hex hllm hloop hsave
    simp only [process_translation_with_rag, rag_update_translation_status, h₀, hex,
      hllm, hloop, hsave, dictGet?_dictSet_self, ragHandleFailure_artifacts]

/-- Witness for the amended C3 at the single-segment scenario. -/
theorem rag_artifact_is_enhanced_ordered_join_witness :
    (process_translation_with_rag ragSingleEnv ragDemoCfg [] [] "job1" "es" "doc.txt"
        none none).artifacts =
      [("job1", enhance_translation ragSingleEnv.webTranslate
          (joinNN ["Hola mundo, esta es una prueba."])
          (detect_language_mock "Hello world, this is a test.") "es"
          (webServiceOf ragSingleEnv.webServiceFor none))] :=
  rag_artifact_is_enhanced_ordered_join.2 ragSingleEnv ragDemoCfg [] [] "job1" "es"
    "doc.txt" none none "Hello world, this is a test."
    "translations/job1_translated.txt" ["Hola mundo, esta es una prueba."]
    rfl rfl rfl rfl rfl

/-- Counterexample to claim C9 as stated: in a one-segment run the recorded
progress when segment 0 completes is 0.7 (the value set before the loop), not
`0.6 + 0.2 * (0+1)/1 = 0.8`. -/
theorem base_progress_not_per_segment :
    (process_translation baseDemoEnv baseDemoSvc [] [] "job1" "es" "doc.txt"
        none none).segCompletionProgress = [mkRat 7 10] ∧
    ¬ (mkRat 7 10 = mkRat 6 10 + mkRat 2 10 * ((0 + 1 : ℚ) / 1)) := by
  constructor
  · rfl
  · intro h
    rw [show ((0 + 1 : ℚ) / 1) = 1 by norm_num] at h
    rw [Rat.mkRat_eq_div, Rat.mkRat_eq_div, Rat.mkRat_eq_div] at h
    norm_num at h

/-- Claim C9 (amended): the `translateEach` stage performs no per-segment
progress updates — in the base pipeline the recorded progress observed at
every segment completion equals the 0.7 set before the loop, and the RAG
pipeline's `_update_progress` is a `pass` stub, so a RAG run never writes the
progress tracker at all. -/
theorem translate_stage_no_per_segment_progress :
    (∀ (env : BaseEnv) (svc : TranslationServiceCfg) (db : TransDB) (tracker : Tracker)
       (tid tl orig : String) (prov user? : Option String),
       ∀ p ∈ (process_translation env svc db tracker tid tl orig prov
           user?).segCompletionProgress, p = mkRat 7 10) ∧
    (∀ (env : RAGEnv) (cfg : RAGCfg) (db : TransDB) (tracker : Tracker)
       (tid tl orig : String) (prov user? : Option String),
       (process_translation_with_rag env cfg db tracker tid tl orig prov
           user?).tracker = tracker) := by
  constructor
  · intro env svc db tracker tid tl orig prov user?
    simp only [process_translation]
    split
    · simp [baseHandleFailure]
    · split
      · simp [baseHandleFailure]
      · split
        · simp
        · split
          · simp [baseHandleFailure]
          next ts obss heq =>
            have hobs := baseTranslateLoop_obs env _ tid _ ts obss heq
            rw [dictGetD_dictSet_self] at hobs
            split
            · simpa [baseHandleFailure] using hobs
            · simpa using hobs
  · intro env cfg db tracker tid tl orig prov user?
    simp only [process_translation_with_rag]
    split
    · simp [ragHandleFailure_tracker]
    · split
      · simp [ragHandleFailure_tracker]
      · split
        · simp [ragHandleFailure_tracker]
        · split
          · simp [ragHandleFailure_tracker]
          · split
            · simp [ragHandleFailure_tracker]
            · split
              · simp [ragHandleFailure_tracker]
              · rfl

/-- Witness for the amended C9: the one-segment base run records 0.7 at its
only segment completion, and a RAG run leaves an empty tracker untouched. -/
theorem translate_stage_no_per_segment_progress_witness :
    (∀ p ∈ (process_translation baseDemoEnv baseDemoSvc [] [] "job1" "es" "doc.txt"
        none none).segCompletionProgress, p = mkRat 7 10) ∧
    (process_translation_with_rag ragSingleEnv ragDemoCfg [] [] "job2" "es" "doc.txt"
        none none).tracker = [] :=
  ⟨translate_stage_no_per_segment_progress.1 baseDemoEnv baseDemoSvc [] [] "job1" "es"
      "doc.txt" none none,
   translate_stage_no_per_segment_progress.2 ragSingleEnv ragDemoCfg [] [] "job2" "es"
      "doc.txt" none none⟩

end TranslateLinker
